import Mathlib

/-!
Verification of the zhifu donation system's order-lifecycle reconciliation
engine and notification fan-out layer.

The definitions below are a shallow embedding of the Go sources:
* `src/services/payment.go` — signature engine (`GenerateSign`,
  `VerifyCallbackSignature`), order creation amount contract
  (`CreateOrder`), polling (`startPaymentPolling`,
  `updateOrderStatusFromQuery`, `updateOrderStatus`) and the two webhook
  reconcilers (`HandleCallback`, `HandleCallbackWithPublicKey`).
* `src/unnamed/part_004` — the HTTP webhook route handler
  (`APIRoutes.HandleCallback`).
* `src/unnamed/part_005` — the WebSocket broadcast fan-out
  (`BroadcastToSpecific`).

Machine integers are modelled as `Nat` with explicit reduction modulo
`2^32`/`2^64` where the Go code overflows; Go `float64` amounts are
modelled as `ℚ`; the external RSA primitive is a parameter of the
webhook model (the Go code calls into `crypto/rsa`); MD5 is implemented
concretely so the symmetric signature engine is fully executable.
-/

namespace Zhifu

/-! ## 32-bit arithmetic helpers (Go `uint32` semantics) -/

/-- `2^32`, the modulus of Go's 32-bit words used by MD5. -/
def m32 : Nat := 4294967296

/-- Truncate to 32 bits. -/
def w32 (n : Nat) : Nat := n % m32

/-- Bitwise complement within 32 bits (argument assumed `< 2^32`). -/
def w32not (n : Nat) : Nat := 4294967295 - n

/-- 32-bit left rotation.  The shifted-out high bits re-enter at the
bottom; since the two parts occupy disjoint bit ranges their sum equals
their bitwise or. -/
def rotl (x s : Nat) : Nat := (x * 2 ^ s) % m32 + x / 2 ^ (32 - s)

/-! ## MD5 (the keyed digest used by `GenerateSign`, Go `crypto/md5`) -/

/-- The 64 MD5 round constants `K[i] = floor(2^32 * abs(sin(i+1)))`. -/
def md5K : List Nat :=
  [0xd76aa478, 0xe8c7b756, 0x242070db, 0xc1bdceee,
   0xf57c0faf, 0x4787c62a, 0xa8304613, 0xfd469501,
   0x698098d8, 0x8b44f7af, 0xffff5bb1, 0x895cd7be,
   0x6b901122, 0xfd987193, 0xa679438e, 0x49b40821,
   0xf61e2562, 0xc040b340, 0x265e5a51, 0xe9b6c7aa,
   0xd62f105d, 0x02441453, 0xd8a1e681, 0xe7d3fbc8,
   0x21e1cde6, 0xc33707d6, 0xf4d50d87, 0x455a14ed,
   0xa9e3e905, 0xfcefa3f8, 0x676f02d9, 0x8d2a4c8a,
   0xfffa3942, 0x8771f681, 0x6d9d6122, 0xfde5380c,
   0xa4beea44, 0x4bdecfa9, 0xf6bb4b60, 0xbebfbc70,
   0x289b7ec6, 0xeaa127fa, 0xd4ef3085, 0x04881d05,
   0xd9d4d039, 0xe6db99e5, 0x1fa27cf8, 0xc4ac5665,
   0xf4292244, 0x432aff97, 0xab9423a7, 0xfc93a039,
   0x655b59c3, 0x8f0ccc92, 0xffeff47d, 0x85845dd1,
   0x6fa87e4f, 0xfe2ce6e0, 0xa3014314, 0x4e0811a1,
   0xf7537e82, 0xbd3af235, 0x2ad7d2bb, 0xeb86d391]

/-- The 64 per-round left-rotation amounts. -/
def md5S : List Nat :=
  [7, 12, 17, 22, 7, 12, 17, 22, 7, 12, 17, 22, 7, 12, 17, 22,
   5, 9, 14, 20, 5, 9, 14, 20, 5, 9, 14, 20, 5, 9, 14, 20,
   4, 11, 16, 23, 4, 11, 16, 23, 4, 11, 16, 23, 4, 11, 16, 23,
   6, 10, 15, 21, 6, 10, 15, 21, 6, 10, 15, 21, 6, 10, 15, 21]

/-- The four 32-bit words of the MD5 running state. -/
structure MD5State where
  a : Nat
  b : Nat
  c : Nat
  d : Nat
deriving Repr, DecidableEq

/-- MD5 initial state. -/
def md5Start : MD5State := ⟨0x67452301, 0xefcdab89, 0x98badcfe, 0x10325476⟩

/-- One of the 64 MD5 rounds over a 16-word message block `m`. -/
def md5Step (m : List Nat) (st : MD5State) (i : Nat) : MD5State :=
  let f :=
    if i < 16 then Nat.lor (Nat.land st.b st.c) (Nat.land (w32not st.b) st.d)
    else if i < 32 then Nat.lor (Nat.land st.d st.b) (Nat.land (w32not st.d) st.c)
    else if i < 48 then Nat.xor (Nat.xor st.b st.c) st.d
    else Nat.xor st.c (Nat.lor st.b (w32not st.d))
  let g :=
    if i < 16 then i
    else if i < 32 then (5 * i + 1) % 16
    else if i < 48 then (3 * i + 5) % 16
    else (7 * i) % 16
  let ftot := w32 (f + st.a + md5K.getD i 0 + m.getD g 0)
  ⟨st.d, w32 (st.b + rotl ftot (md5S.getD i 0)), st.b, st.c⟩

/-- Process one 512-bit block: 64 rounds, then add into the state. -/
def md5Chunk (st : MD5State) (m : List Nat) : MD5State :=
  let r := (List.range 64).foldl (md5Step m) st
  ⟨w32 (st.a + r.a), w32 (st.b + r.b), w32 (st.c + r.c), w32 (st.d + r.d)⟩

/-- Little-endian 4-byte serialization of a 32-bit word. -/
def le4 (n : Nat) : List Nat :=
  [n % 256, n / 256 % 256, n / 65536 % 256, n / 16777216 % 256]

/-- Little-endian 8-byte serialization of a 64-bit length field. -/
def le8 (n : Nat) : List Nat := le4 (n % m32) ++ le4 (n / m32 % m32)

/-- MD5 padding: a `0x80` byte, zeros up to 56 mod 64, then the bit
length in 64 bits little-endian. -/
def md5Pad (msg : List Nat) : List Nat :=
  let len := msg.length
  let k := (120 - (len + 1) % 64) % 64
  msg ++ [128] ++ List.replicate k 0 ++ le8 (8 * len % 2 ^ 64)

/-- Decode a 64-byte chunk into 16 little-endian 32-bit words. -/
def md5Words (chunk : List Nat) : List Nat :=
  (List.range 16).map fun j =>
    chunk.getD (4 * j) 0 + 256 * chunk.getD (4 * j + 1) 0 +
      65536 * chunk.getD (4 * j + 2) 0 + 16777216 * chunk.getD (4 * j + 3) 0

/-- The 16-byte MD5 digest of a byte sequence. -/
def md5Bytes (msg : List Nat) : List Nat :=
  let padded := md5Pad msg
  let n := padded.length / 64
  let final := (List.range n).foldl
    (fun st i => md5Chunk st (md5Words ((padded.drop (64 * i)).take 64))) md5Start
  le4 final.a ++ le4 final.b ++ le4 final.c ++ le4 final.d

/-- Uppercase hexadecimal digit. -/
def hexDigitU (n : Nat) : Char :=
  if n = 0 then '0' else if n = 1 then '1' else if n = 2 then '2'
  else if n = 3 then '3' else if n = 4 then '4' else if n = 5 then '5'
  else if n = 6 then '6' else if n = 7 then '7' else if n = 8 then '8'
  else if n = 9 then '9' else if n = 10 then 'A' else if n = 11 then 'B'
  else if n = 12 then 'C' else if n = 13 then 'D' else if n = 14 then 'E'
  else 'F'

/-- Two uppercase hex characters for one byte. -/
def byteHexU (b : Nat) : List Char := [hexDigitU (b / 16), hexDigitU (b % 16)]

/-- Uppercase hex MD5 of a byte sequence, mirroring Go's
`strings.ToUpper(hex.EncodeToString(md5.Sum(...)))`. -/
def md5HexUpper (msg : List Nat) : String := ⟨(md5Bytes msg).flatMap byteHexU⟩

/-- UTF-8 encoding of one character (Go strings are UTF-8 bytes). -/
def utf8Char (c : Char) : List Nat :=
  let n := c.toNat
  if n < 128 then [n]
  else if n < 2048 then [192 + n / 64, 128 + n % 64]
  else if n < 65536 then [224 + n / 4096, 128 + n / 64 % 64, 128 + n % 64]
  else [240 + n / 262144, 128 + n / 4096 % 64, 128 + n / 64 % 64, 128 + n % 64]

/-- The UTF-8 bytes of a string, as hashed by the Go code. -/
def strBytes (s : String) : List Nat := s.data.flatMap utf8Char

/-! ## Symmetric signature engine (`GenerateSign`, src/services/payment.go 149-197) -/

/-- Byte-ascending comparison of character lists.  Go's `sort.Strings`
compares UTF-8 byte sequences; UTF-8 byte order coincides with code
point order, which is what is compared here. -/
def charListLe : List Char → List Char → Bool
  | [], _ => true
  | _ :: _, [] => false
  | a :: as, b :: bs =>
    if a.toNat < b.toNat then true
    else if b.toNat < a.toNat then false
    else charListLe as bs

/-- Byte-ascending string comparison (Go `sort.Strings` order). -/
def strLeB (a b : String) : Bool := charListLe a.data b.data

/-- Insert into a byte-ascending sorted list. -/
def insertSorted (x : String) : List String → List String
  | [] => [x]
  | y :: ys => if strLeB x y then x :: y :: ys else y :: insertSorted x ys

/-- Byte-ascending sort of the key list.  Go's `sort.Strings` sorts the
keys by byte value ascending; any sorted permutation is unique for this
antisymmetric total order (`sortStrings_eq_of_perm` below), so this
structural insertion sort has the same result. -/
def sortStrings : List String → List String
  | [] => []
  | x :: xs => insertSorted x (sortStrings xs)

/-- Join strings with `&` between consecutive elements, mirroring the
`signStr` builder loop that writes `&` whenever `i < len(keys)-1`. -/
def joinAmp : List String → String
  | [] => ""
  | [s] => s
  | s :: rest => s ++ "&" ++ joinAmp rest

/-- The credential subset of `ShouqianbaConfig` consumed by the embedded
operations (`TerminalKey` and `VendorKey`; the remaining fields of the Go
struct configure HTTP endpoints and OAuth and are outside the model). -/
structure ShouqianbaConfig where
  terminalKey : String
  vendorKey : String
deriving Repr, DecidableEq

/-- Step 1 of `GenerateSign`: keep a parameter iff its value is non-empty
and its key is none of `sign`, `sign_type`, `flowT`, `flowSign`, `flow`. -/
def keepParam (kv : String × String) : Bool :=
  kv.2 != "" && kv.1 != "sign" && kv.1 != "sign_type" && kv.1 != "flowT" &&
    kv.1 != "flowSign" && kv.1 != "flow"

/-- Steps 1-4 of `GenerateSign`: filter, sort keys ascending, join as
`k=v` pairs with `&`, append `&key=<secret>`. -/
def signStringOf (params : List (String × String)) (signKey : String) : String :=
  let filtered := params.filter keepParam
  let keys := sortStrings (filtered.map Prod.fst)
  joinAmp (keys.map fun k => k ++ "=" ++ ((filtered.lookup k).getD "")) ++
    "&key=" ++ signKey

/-- The `signType` switch of `GenerateSign`: `terminal` selects the
terminal key, `vendor` and anything else the vendor key. -/
def resolveSignKey (config : ShouqianbaConfig) (signType : String) : String :=
  if signType = "terminal" then config.terminalKey
  else if signType = "vendor" then config.vendorKey
  else config.vendorKey

/-- `GenerateSign` (src/services/payment.go 149-197): filter and sort the
parameters, join them, append the secret, MD5, uppercase hex. -/
def generateSign (config : ShouqianbaConfig) (params : List (String × String))
    (signType : String) : String :=
  md5HexUpper (strBytes (signStringOf params (resolveSignKey config signType)))

/-- The filter step as the SPEC words it (refinement comparison only):
drop exactly the empty-valued entries and the meta fields `sign` and
`sign_type`. -/
def keepParamSpecOnly (kv : String × String) : Bool :=
  kv.2 != "" && kv.1 != "sign" && kv.1 != "sign_type"

/-- `GenerateSign` as the SPEC describes it (refinement comparison only):
identical pipeline but with the spec's drop set. -/
def generateSignSpecOnly (config : ShouqianbaConfig)
    (params : List (String × String)) (signType : String) : String :=
  let filtered := params.filter keepParamSpecOnly
  let keys := sortStrings (filtered.map Prod.fst)
  md5HexUpper (strBytes
    (joinAmp (keys.map fun k => k ++ "=" ++ ((filtered.lookup k).getD "")) ++
      "&key=" ++ resolveSignKey config signType))

/-! ## Dynamic JSON values (Go `map[string]interface{}` with type asserts) -/

/-- A dynamically-typed JSON value as the Go code consumes it:
`map[string]interface{}` entries are either strings, nested objects, or
something else (numbers, arrays, ...) that every type assertion in the
modelled code rejects. -/
inductive JVal where
  | str (s : String)
  | jobj (fields : List (String × JVal))
  | other
deriving Repr

/-- A JSON object: the field list of a `map[string]interface{}`. -/
abbrev JObj := List (String × JVal)

/-- Go `m["k"].(string)`: `some` iff the field exists and is a string. -/
def getStr (fields : JObj) (k : String) : Option String :=
  match fields.lookup k with
  | some (.str s) => some s
  | _ => none

/-- Go `m["k"].(map[string]interface{})`. -/
def getObj (fields : JObj) (k : String) : Option JObj :=
  match fields.lookup k with
  | some (.jobj o) => some o
  | _ => none

/-! ## Order store (`models.Donation` rows; the struct's fields are the
ones the embedded src code reads and writes) -/

/-- One `models.Donation` row.  `amount` is the major-unit amount the Go
code stores as `float64`, modelled as `ℚ`. -/
structure Donation where
  openID : String
  amount : ℚ
  payment : String
  paymentConfigID : String
  categories : String
  blessing : String
  orderID : String
  status : String
  payerUID : String
  createdAt : String
deriving Repr, DecidableEq

/-- The persistent order store: the `donations` table. -/
abbrev DB := List Donation

/-- Go `utils.DB.Where("order_id = ?", orderID).First(&donation)`. -/
def findDonation (db : DB) (orderID : String) : Option Donation :=
  db.find? fun d => d.orderID == orderID

/-- `updateOrderStatus` (src/services/payment.go 1249-1271), with a flag
recording whether a row was actually written: read the order; missing
order or unchanged status leave the store untouched; otherwise update
only the `status` column of the rows matching `order_id`. -/
def updateOrderStatusT (db : DB) (orderID status : String) : DB × Bool :=
  match findDonation db orderID with
  | none => (db, false)
  | some donation =>
    if donation.status ≠ status then
      (db.map fun d =>
        if d.orderID == orderID then { d with status := status } else d, true)
    else (db, false)

/-- `updateOrderStatus`, store effect only. -/
def updateOrderStatus (db : DB) (orderID status : String) : DB :=
  (updateOrderStatusT db orderID status).1

/-- Result of `updateOrderStatusFromQuery`: the store, the broadcast
marker set (`BroadcastedOrders`), and the Go function's `(bool, string)`
return value. -/
structure QueryUpdateResult where
  db : DB
  broadcasted : List String
  updated : Bool
  status : String
deriving Repr

/-- `updateOrderStatusFromQuery` (src/services/payment.go 1164-1247):
parse `biz_response`; `FAIL` with `UPAY_ORDER_NOT_EXISTS` marks the
order failed; otherwise map `order_status` (`PAID` → completed,
`PAY_CANCELED` → failed, `CREATED`/`PAY_ERROR` → pending, anything else
→ unknown) and write every non-pending result through
`updateOrderStatus`; a completed wechat order is marked in
`BroadcastedOrders` unless already marked (the broadcast call itself was
removed from this path in the source). -/
def updateOrderStatusFromQuery (db : DB) (broadcasted : List String)
    (orderID : String) (result : JObj) : QueryUpdateResult :=
  match getObj result "biz_response" with
  | none => ⟨db, broadcasted, false, ""⟩
  | some biz =>
    if (getStr biz "result_code").getD "" = "FAIL" then
      if (getStr biz "error_code").getD "" = "UPAY_ORDER_NOT_EXISTS" then
        ⟨updateOrderStatus db orderID "failed", broadcasted, true, "failed"⟩
      else ⟨db, broadcasted, false, ""⟩
    else
      match getObj biz "data" with
      | none => ⟨db, broadcasted, false, ""⟩
      | some data =>
        match getStr data "order_status" with
        | none => ⟨db, broadcasted, false, ""⟩
        | some orderStatus =>
          let status :=
            if orderStatus = "PAID" then "completed"
            else if orderStatus = "PAY_CANCELED" then "failed"
            else if orderStatus = "CREATED" ∨ orderStatus = "PAY_ERROR" then
              "pending"
            else "unknown"
          if status ≠ "pending" ∨ orderStatus = "PAID" ∨
              orderStatus = "PAY_CANCELED" then
            let db' := updateOrderStatus db orderID status
            let broadcasted' :=
              if status = "completed" then
                match findDonation db' orderID with
                | some donation =>
                  if donation.payment = "wechat" then
                    if broadcasted.contains orderID then broadcasted
                    else orderID :: broadcasted
                  else broadcasted
                | none => broadcasted
              else broadcasted
            ⟨db', broadcasted', true, status⟩
          else ⟨db, broadcasted, false, ""⟩

/-- A second completed order, used for concrete frame-effect checks. -/
def w1Order : Donation :=
  { openID := "", amount := 1, payment := "wechat", paymentConfigID := "",
    categories := "", blessing := "", orderID := "W1",
    status := "completed", payerUID := "", createdAt := "" }

/-- A completed order used to exhibit the terminal-stickiness violation. -/
def c1Order : Donation :=
  { openID := "", amount := 1, payment := "wechat", paymentConfigID := "",
    categories := "", blessing := "", orderID := "ORD1",
    status := "completed", payerUID := "", createdAt := "" }

/-- A gateway query result whose `order_status` is neither `PAID`,
`PAY_CANCELED`, `CREATED` nor `PAY_ERROR`. -/
def c1QueryResult : JObj :=
  [("biz_response", .jobj [("result_code", .str "SUCCESS"),
      ("data", .jobj [("order_status", .str "INVALID_STATUS")])])]

/-! ## Poller schedule (`startPaymentPolling`, src/services/payment.go
1028-1161) -/

/-- `time.Sleep(5 * time.Second)` before the first query. -/
def initialPollDelaySeconds : Nat := 5

/-- `maxPollingTime := 6 * time.Minute`, in seconds. -/
def maxPollingSeconds : Nat := 360

/-- What one iteration of the polling loop does next. -/
inductive PollAction where
  | sleepThenContinue (seconds : Nat)
  | stopTerminal
  | breakLoop
deriving Repr, DecidableEq

/-- Result of one polling-loop iteration. -/
structure PollIterResult where
  action : PollAction
  db : DB
  broadcasted : List String
  isFinalQuery : Bool
deriving Repr

/-- One iteration of the polling loop (src/services/payment.go
1039-1090), at wall-clock `elapsed` seconds since the loop started:
compute the sleep interval (3s while `elapsed ≤ 60`, 10s once
`elapsed > 60`); break without sleeping once `elapsed` exceeds the
6-minute budget; a failed query just sleeps (`goto sleep`); a terminal
update returns immediately; at `elapsed ≥ 300` the `isFinalQuery` flag
is set and the loop breaks. -/
def pollIteration (db : DB) (broadcasted : List String) (orderID : String)
    (elapsed : Nat) (isFinalQuery : Bool) (queryResult : Option JObj) :
    PollIterResult :=
  let sleepDuration := if elapsed > 60 then 10 else 3
  if elapsed > maxPollingSeconds then ⟨.breakLoop, db, broadcasted, isFinalQuery⟩
  else
    match queryResult with
    | none => ⟨.sleepThenContinue sleepDuration, db, broadcasted, isFinalQuery⟩
    | some result =>
      let r := updateOrderStatusFromQuery db broadcasted orderID result
      if r.updated ∧ (r.status = "completed" ∨ r.status = "failed") then
        ⟨.stopTerminal, r.db, r.broadcasted, isFinalQuery⟩
      else
        let fq := if elapsed ≥ 300 ∧ ¬isFinalQuery then true else isFinalQuery
        if fq then ⟨.breakLoop, r.db, r.broadcasted, fq⟩
        else ⟨.sleepThenContinue sleepDuration, r.db, r.broadcasted, fq⟩

/-- Result of the post-loop expiry check, with the count of gateway
queries it performs. -/
structure FinalPhaseResult where
  db : DB
  queries : Nat
deriving Repr

/-- The expiry phase after the polling loop breaks
(src/services/payment.go 1092-1161): re-read the persisted order; if it
is already terminal, do nothing; otherwise issue one last query, map
`PAID`/`PAY_CANCELED` to their terminal statuses, and set `unknown` on
an ambiguous or failed query only when the persisted status is still
non-terminal. -/
def pollFinalPhase (db : DB) (orderID : String)
    (queryResult : Option JObj) : FinalPhaseResult :=
  let currentStatus :=
    match findDonation db orderID with
    | some d => d.status
    | none => ""
  if currentStatus = "completed" ∨ currentStatus = "failed" then ⟨db, 0⟩
  else
    match queryResult with
    | none =>
      if currentStatus ≠ "completed" ∧ currentStatus ≠ "failed" then
        ⟨updateOrderStatus db orderID "unknown", 1⟩
      else ⟨db, 1⟩
    | some result =>
      let os := (getObj result "biz_response").bind
        (fun biz => (getObj biz "data").bind
          fun data => getStr data "order_status")
      match os with
      | some orderStatus =>
        if orderStatus = "PAID" then
          ⟨updateOrderStatus db orderID "completed", 1⟩
        else if orderStatus = "PAY_CANCELED" then
          ⟨updateOrderStatus db orderID "failed", 1⟩
        else if currentStatus ≠ "completed" ∧ currentStatus ≠ "failed" then
          ⟨updateOrderStatus db orderID "unknown", 1⟩
        else ⟨db, 1⟩
      | none =>
        if currentStatus ≠ "completed" ∧ currentStatus ≠ "failed" then
          ⟨updateOrderStatus db orderID "unknown", 1⟩
        else ⟨db, 1⟩

/-! ## Order-creation amount contract (`CreateOrder`,
src/services/payment.go 752-770) -/

/-- Go `math.Round`: round half away from zero (half up on the positive
amounts this code accepts). -/
def goRound (x : ℚ) : ℤ :=
  if 0 ≤ x then ⌊x + 1 / 2⌋ else ⌈x - 1 / 2⌉

/-- The amount validation and minor-unit conversion of `CreateOrder`:
reject amounts outside `[0.01, 10000]`; convert accepted amounts with
`int64(math.Round(amount * 100))` floored to a minimum of 1. -/
def createOrderAmountToMinor (amount : ℚ) : Option ℤ :=
  if amount < 1 / 100 ∨ amount > 10000 then none
  else
    let totalAmount := goRound (amount * 100)
    some (if totalAmount < 1 then 1 else totalAmount)

/-! ## Broadcast fan-out (`BroadcastToSpecific`, src/unnamed/part_005
222-271) -/

/-- A registered WebSocket subscriber: connection id plus the optional
`(payment, categories)` filter parsed at handshake. -/
structure ClientConn where
  connID : String
  payment : String
  categories : String
deriving Repr, DecidableEq

/-- The subscribers `BroadcastToSpecific` attempts to send to: the
filter condition of the `Clients.Range` body, `payment == "" ||
clientConn.Payment == payment` and likewise for `categories`, where
`payment`/`categories` are the NOTIFICATION tags. -/
def broadcastToSpecificTargets (clients : List ClientConn)
    (payment categories : String) : List ClientConn :=
  clients.filter fun c =>
    (payment == "" || c.payment == payment) &&
      (categories == "" || c.categories == categories)

/-- The matching rule as the SPEC words it (refinement comparison only):
a subscriber receives iff on each axis its FILTER is empty (match-all)
or equal to the notification's tag. -/
def claimReceives (c : ClientConn) (payment categories : String) : Bool :=
  (c.payment == "" || c.payment == payment) &&
    (c.categories == "" || c.categories == categories)

/-! ## Webhook reconcilers (src/services/payment.go 1274-1518) and the
HTTP route handler (src/unnamed/part_004 842-1131) -/

/-- Observable events of one webhook delivery, in the order the source
performs them.  `ack` is the 200 `success` response body; `rejectResp`
a 403; `dbUpdate` the service's synchronous `Updates(updateData)` write;
`dbStatusWrite` an actual write performed by `updateOrderStatus`;
`enrichDispatch` the spawn of the user-info enrichment goroutine;
`stubUpdate` the route's `updateOrderStatusToPaid` (a TODO stub that
performs no real write and always returns nil); `broadcastSend` one
WebSocket broadcast (targeted or global). -/
inductive Ev where
  | sigVerifyAsym (ok : Bool)
  | sigVerifySym (ok : Bool)
  | enrichDispatch
  | dbUpdate
  | dbStatusWrite
  | ack
  | rejectResp
  | stubUpdate
  | broadcastSend (targeted : Bool)
deriving Repr, DecidableEq

/-- External primitives the webhook path calls into: `rsaVerify` is
`VerifyCallbackSignature` (RSA SHA256 over the raw body against the
hard-coded gateway public key, src/services/payment.go 1520-1569), and
`parseReflect` is `json.Unmarshal` of the `reflect` string into a
string map. -/
structure Ext where
  rsaVerify : List Nat → String → Bool
  parseReflect : String → Option (List (String × String))

/-- Order-id resolution of the service reconcilers: `client_sn`, then
`order_id`, `out_trade_no`, `transaction_id`, then `wechat.order_id`. -/
def resolveOrderIDSvc (data : JObj) : String :=
  let oid := (getStr data "client_sn").getD ""
  if oid ≠ "" then oid
  else
    match getStr data "order_id" with
    | some id => id
    | none =>
      match getStr data "out_trade_no" with
      | some id => id
      | none =>
        match getStr data "transaction_id" with
        | some id => id
        | none =>
          match getObj data "wechat" with
          | some w => (getStr w "order_id").getD ""
          | none => ""

/-- Order-id resolution of the route handler (src/unnamed/part_004
871-884): same aliases but without the nested `wechat` fallback. -/
def resolveOrderIDRoute (data : JObj) : String :=
  let oid := (getStr data "client_sn").getD ""
  if oid ≠ "" then oid
  else
    match getStr data "order_id" with
    | some id => id
    | none =>
      match getStr data "out_trade_no" with
      | some id => id
      | none => (getStr data "transaction_id").getD ""

/-- Amount resolution of the route handler: `amount`, then
`total_amount`, then `pay_amount`. -/
def resolveAmountRoute (data : JObj) : String :=
  let a := (getStr data "amount").getD ""
  if a ≠ "" then a
  else
    match getStr data "total_amount" with
    | some s => s
    | none => (getStr data "pay_amount").getD ""

/-- Status resolution of the route handler: `status`, then
`trade_status`, then `result_code`. -/
def resolveStatusRoute (data : JObj) : String :=
  let st := (getStr data "status").getD ""
  if st ≠ "" then st
  else
    match getStr data "trade_status" with
    | some s => s
    | none => (getStr data "result_code").getD ""

/-- The route handler's success-status whitelist. -/
def isSuccessStatus (status : String) : Bool :=
  status == "success" || status == "SUCCESS" || status == "TRADE_SUCCESS" ||
    status == "PAY_SUCCESS"

/-- Payment-type resolution of the reconcilers: the order's stored
payment method, overridden by a `payment` key parsed out of a non-empty
JSON `reflect` field. -/
def resolvePaymentType (ext : Ext) (donation : Donation) (data : JObj) :
    String :=
  match getStr data "reflect" with
  | some r =>
    if r ≠ "" then
      match ext.parseReflect r with
      | some m =>
        match m.lookup "payment" with
        | some pt => pt
        | none => donation.payment
      | none => donation.payment
    else donation.payment
  | none => donation.payment

/-- Outcome of a service reconciler call: Go's `error` return collapsed
to `ok`, the store, and the events in source order. -/
structure SvcResult where
  ok : Bool
  db : DB
  events : List Ev
deriving Repr

/-- `HandleCallbackWithPublicKey` (src/services/payment.go 1407-1518):
RSA-verify the raw body against the Authorization header; resolve the
order id; a `completed` order is acknowledged as a duplicate with no
further work; otherwise map `status == "SUCCESS"` to completed (anything
else to failed), dispatch enrichment asynchronously for completed,
write Status/Payment (and OpenID/PayerUID from `payer_uid`) through one
`Updates` call, then call `updateOrderStatus` (which finds the status
already equal and writes nothing). -/
def handleCallbackWithPublicKeyM (ext : Ext) (db : DB) (data : JObj)
    (authHeader : String) (rawBody : List Nat) : SvcResult :=
  if ¬ ext.rsaVerify rawBody authHeader then
    ⟨false, db, [.sigVerifyAsym false]⟩
  else
    let evs := [Ev.sigVerifyAsym true]
    let orderID := resolveOrderIDSvc data
    if orderID = "" then ⟨false, db, evs⟩
    else
      match findDonation db orderID with
      | none => ⟨false, db, evs⟩
      | some donation =>
        if donation.status = "completed" then ⟨true, db, evs⟩
        else
          let transactionStatus := (getStr data "status").getD ""
          let paymentType := resolvePaymentType ext donation data
          let finalStatus :=
            if transactionStatus = "SUCCESS" then "completed" else "failed"
          let openid := (getStr data "payer_uid").getD ""
          let enrichEvs :=
            if finalStatus = "completed" then [Ev.enrichDispatch] else []
          let setOpen := openid ≠ "" ∧ donation.openID = ""
          let db₁ := db.map fun d =>
            if d.orderID == orderID then
              { d with
                status := finalStatus
                payment := paymentType
                openID := if setOpen then openid else d.openID
                payerUID := if openid ≠ "" then openid else d.payerUID }
            else d
          let r := updateOrderStatusT db₁ orderID finalStatus
          ⟨true, r.1, evs ++ enrichEvs ++ [Ev.dbUpdate] ++
            (if r.2 then [Ev.dbStatusWrite] else [])⟩

/-- `HandleCallback` (src/services/payment.go 1274-1404), the legacy
symmetric path: re-sign the string-valued fields (minus `sign`) with the
terminal key and compare with the embedded `sign`; the rest mirrors the
asymmetric reconciler, except that `OpenID` is overwritten whenever the
stored one is empty (no non-empty check on `payer_uid`). -/
def handleCallbackM (ext : Ext) (cfg : ShouqianbaConfig) (db : DB)
    (data : JObj) : SvcResult :=
  let originalSign := (getStr data "sign").getD ""
  let callbackData := (data.filterMap fun kv =>
    match kv.2 with
    | .str s => some (kv.1, s)
    | _ => none).filter fun kv => kv.1 ≠ "sign"
  let expectedSign := generateSign cfg callbackData "terminal"
  if originalSign ≠ expectedSign then ⟨false, db, [.sigVerifySym false]⟩
  else
    let evs := [Ev.sigVerifySym true]
    let orderID := resolveOrderIDSvc data
    if orderID = "" then ⟨false, db, evs⟩
    else
      match findDonation db orderID with
      | none => ⟨false, db, evs⟩
      | some donation =>
        if donation.status = "completed" then ⟨true, db, evs⟩
        else
          let transactionStatus := (getStr data "status").getD ""
          let paymentType := resolvePaymentType ext donation data
          let finalStatus :=
            if transactionStatus ≠ "SUCCESS" then "failed" else "completed"
          let openid := (getStr data "payer_uid").getD ""
          let enrichEvs :=
            if finalStatus = "completed" then [Ev.enrichDispatch] else []
          let setOpen := donation.openID = ""
          let db₁ := db.map fun d =>
            if d.orderID == orderID then
              { d with
                status := finalStatus
                payment := paymentType
                openID := if setOpen then openid else d.openID
                payerUID := if openid ≠ "" then openid else d.payerUID }
            else d
          let r := updateOrderStatusT db₁ orderID finalStatus
          ⟨true, r.1, evs ++ enrichEvs ++ [Ev.dbUpdate] ++
            (if r.2 then [Ev.dbStatusWrite] else [])⟩

/-- Outcome of one route-handler invocation. -/
structure RouteResult where
  statusCode : Nat
  body : String
  db : DB
  events : List Ev
deriving Repr

/-- The asynchronous tail the route handler spawns after acknowledging
(src/unnamed/part_004 960-1114): the stub `updateOrderStatusToPaid`
(always nil), then the broadcast decision — the order's project id and
category (falling back to callback fields), then: alipay callbacks
broadcast (targeted when a parameter is present, global otherwise),
wechat callbacks do not broadcast here, and any other callback
broadcasts like alipay. -/
def routeAsyncTail (db : DB) (data : JObj) (orderID : String) : List Ev :=
  let payment :=
    match findDonation db orderID with
    | some donation =>
      if donation.paymentConfigID ≠ "" then donation.paymentConfigID else ""
    | none => ""
  let payment :=
    if payment = "" then
      match getStr data "project_id" with
      | some p => p
      | none => (getStr data "project").getD ""
    else payment
  let categories :=
    match findDonation db orderID with
    | some donation =>
      if donation.categories ≠ "" then donation.categories else ""
    | none => ""
  let categories :=
    if categories = "" then
      match getStr data "categories" with
      | some c => c
      | none =>
        match getStr data "category" with
        | some c => c
        | none =>
          match getStr data "category_id" with
          | some c => c
          | none => (getStr data "categoryId").getD ""
    else categories
  let isWeChatPay := (getObj data "wechat").isSome
  let isAlipay := ¬isWeChatPay ∧ (getObj data "alipay").isSome
  let broadcastEvs :=
    if isAlipay then
      if payment ≠ "" ∨ categories ≠ "" then [Ev.broadcastSend true]
      else [Ev.broadcastSend false]
    else if isWeChatPay then []
    else
      if payment ≠ "" ∨ categories ≠ "" then [Ev.broadcastSend true]
      else [Ev.broadcastSend false]
  Ev.stubUpdate :: broadcastEvs

/-- `APIRoutes.HandleCallback` (src/unnamed/part_004 842-1115): an
unparsable body is acknowledged with `success`; so is any webhook whose
resolved status is not in the success whitelist — both without any
signature check or store access.  A success webhook is verified on the
asymmetric path when the Authorization header is non-empty, otherwise on
the legacy symmetric path when a non-empty embedded `sign` exists,
otherwise rejected 403 `missing sign`; a verification error is rejected
403; on success the route writes `success` and spawns the asynchronous
tail. -/
def routeHandleCallback (ext : Ext) (cfg : ShouqianbaConfig) (db : DB)
    (authHeader : String) (body : Option JObj) (rawBody : List Nat) :
    RouteResult :=
  match body with
  | none => ⟨200, "success", db, [.ack]⟩
  | some data =>
    let orderID := resolveOrderIDRoute data
    let status := resolveStatusRoute data
    if ¬ isSuccessStatus status then ⟨200, "success", db, [.ack]⟩
    else
      if authHeader ≠ "" then
        let r := handleCallbackWithPublicKeyM ext db data authHeader rawBody
        if ¬ r.ok then
          ⟨403, "signature verify failed", r.db, r.events ++ [.rejectResp]⟩
        else
          ⟨200, "success", r.db,
            r.events ++ [Ev.ack] ++ routeAsyncTail r.db data orderID⟩
      else
        match getStr data "sign" with
        | some s =>
          if s ≠ "" then
            let r := handleCallbackM ext cfg db data
            if ¬ r.ok then
              ⟨403, "signature verify failed", r.db,
                r.events ++ [.rejectResp]⟩
            else
              ⟨200, "success", r.db,
                r.events ++ [Ev.ack] ++ routeAsyncTail r.db data orderID⟩
          else ⟨403, "missing sign", db, [.rejectResp]⟩
        | none => ⟨403, "missing sign", db, [.rejectResp]⟩

/-! ## Concrete webhook fixtures and event classifiers -/

/-- External deps where RSA verification always succeeds. -/
def extAllOk : Ext := ⟨fun _ _ => true, fun _ => none⟩

/-- External deps where RSA verification always fails. -/
def extRsaFails : Ext := ⟨fun _ _ => false, fun _ => none⟩

/-- A concrete credential pair. -/
def testCfg : ShouqianbaConfig := ⟨"tk", "vk"⟩

/-- A pending alipay order. -/
def aliOrder : Donation :=
  { openID := "", amount := 1, payment := "alipay", paymentConfigID := "2",
    categories := "5", blessing := "", orderID := "A1", status := "pending",
    payerUID := "", createdAt := "" }

/-- A success webhook for that order, tagged as an alipay callback. -/
def aliWebhook : JObj :=
  [("client_sn", .str "A1"), ("status", .str "SUCCESS"),
   ("payer_uid", .str "U1"), ("alipay", .jobj [])]

/-- First delivery of the success webhook. -/
def aliDelivery1 : RouteResult :=
  routeHandleCallback extAllOk testCfg [aliOrder] "AUTH" (some aliWebhook) []

/-- Second (duplicate) delivery of the same webhook, after the first. -/
def aliDelivery2 : RouteResult :=
  routeHandleCallback extAllOk testCfg aliDelivery1.db "AUTH"
    (some aliWebhook) []

/-- Is the event a broadcast send? -/
def isBroadcastEv : Ev → Bool
  | .broadcastSend _ => true
  | _ => false

/-- Is the event an enrichment dispatch? -/
def isEnrichEv : Ev → Bool
  | .enrichDispatch => true
  | _ => false

/-- Number of broadcast sends in an event list. -/
def countBroadcasts (evs : List Ev) : Nat := (evs.filter isBroadcastEv).length

/-- Number of enrichment dispatches in an event list. -/
def countEnrich (evs : List Ev) : Nat := (evs.filter isEnrichEv).length

/-- Index of the first occurrence of an event. -/
def evIdx : List Ev → Ev → Nat
  | [], _ => 0
  | x :: xs, e => if x = e then 0 else evIdx xs e + 1

/-- Events of the asynchronous tail the route spawns after the ack. -/
def asyncTailEv : Ev → Bool
  | .stubUpdate => true
  | .broadcastSend _ => true
  | _ => false

/-- Events the asymmetric service reconciler can emit. -/
def asymEv : Ev → Bool
  | .sigVerifyAsym _ => true
  | .enrichDispatch => true
  | .dbUpdate => true
  | .dbStatusWrite => true
  | _ => false

/-- Events the symmetric service reconciler can emit. -/
def symEv : Ev → Bool
  | .sigVerifySym _ => true
  | .enrichDispatch => true
  | .dbUpdate => true
  | .dbStatusWrite => true
  | _ => false

/-- A webhook that reports a non-success status and carries no
signature of either kind. -/
def failedUnsignedWebhook : JObj :=
  [("client_sn", .str "A1"), ("status", .str "FAILED")]

/-- A webhook that reports a success status and carries no signature of
either kind. -/
def successUnsignedWebhook : JObj :=
  [("client_sn", .str "A1"), ("status", .str "SUCCESS")]

/-- A non-success webhook carrying a GENUINELY VALID embedded symmetric
signature (computed by the engine itself over its string fields minus
`sign`). -/
def c10Webhook : JObj :=
  [("client_sn", .str "A1"), ("status", .str "FAILED"),
   ("sign", .str (generateSign testCfg
     [("client_sn", "A1"), ("status", "FAILED")] "terminal"))]

/-- Replace (or add) one field of a JSON object. -/
def setField (data : JObj) (k : String) (v : JVal) : JObj :=
  (k, v) :: data.filter fun kv => kv.1 ≠ k

/-! ## Supporting lemmas -/

/-- The byte-ascending order is total. -/
theorem charListLe_total : ∀ as bs : List Char,
    charListLe as bs = true ∨ charListLe bs as = true
  | [], bs => by left; cases bs <;> rfl
  | _ :: _, [] => by right; rfl
  | a :: as, b :: bs => by
    rcases Nat.lt_trichotomy a.toNat b.toNat with h | h | h
    · left; simp [charListLe, h]
    · have h1 : ¬a.toNat < b.toNat := by omega
      have h2 : ¬b.toNat < a.toNat := by omega
      simpa [charListLe, h1, h2] using charListLe_total as bs
    · right; simp [charListLe, h]

/-- The byte-ascending order is transitive. -/
theorem charListLe_trans : ∀ as bs cs : List Char,
    charListLe as bs = true → charListLe bs cs = true → charListLe as cs = true
  | [], _, cs, _, _ => by cases cs <;> rfl
  | _ :: _, [], _, h, _ => by simp [charListLe] at h
  | _ :: _, _ :: _, [], _, h => by simp [charListLe] at h
  | a :: as, b :: bs, c :: cs, h₁, h₂ => by
    simp only [charListLe] at h₁ h₂ ⊢
    by_cases hab : a.toNat < b.toNat
    · by_cases hbc : b.toNat < c.toNat
      · have hac : a.toNat < c.toNat := by omega
        simp [hac]
      · by_cases hcb : c.toNat < b.toNat
        · simp [hbc, hcb] at h₂
        · have hac : a.toNat < c.toNat := by omega
          simp [hac]
    · by_cases hba : b.toNat < a.toNat
      · simp [hab, hba] at h₁
      · simp [hab, hba] at h₁
        by_cases hbc : b.toNat < c.toNat
        · have hac : a.toNat < c.toNat := by omega
          simp [hac]
        · by_cases hcb : c.toNat < b.toNat
          · simp [hbc, hcb] at h₂
          · simp [hbc, hcb] at h₂
            have hac : ¬a.toNat < c.toNat := by omega
            have hca : ¬c.toNat < a.toNat := by omega
            simpa [hac, hca] using charListLe_trans as bs cs h₁ h₂

/-- The byte-ascending order is antisymmetric. -/
theorem charListLe_antisymm : ∀ as bs : List Char,
    charListLe as bs = true → charListLe bs as = true → as = bs
  | [], [], _, _ => rfl
  | [], _ :: _, _, h => by simp [charListLe] at h
  | _ :: _, [], h, _ => by simp [charListLe] at h
  | a :: as, b :: bs, h₁, h₂ => by
    simp only [charListLe] at h₁ h₂
    by_cases hab : a.toNat < b.toNat
    · have hba : ¬b.toNat < a.toNat := by omega
      simp [hab, hba] at h₂
    · by_cases hba : b.toNat < a.toNat
      · simp [hab, hba] at h₁
      · simp [hab, hba] at h₁ h₂
        have hn : a.toNat = b.toNat := by omega
        have hc : a = b := Char.ext (UInt32.toNat.inj hn)
        rw [hc, charListLe_antisymm as bs h₁ h₂]

/-- Totality of `strLeB`. -/
theorem strLeB_total (a b : String) : strLeB a b = true ∨ strLeB b a = true :=
  charListLe_total a.data b.data

/-- Transitivity of `strLeB`. -/
theorem strLeB_trans {a b c : String} (h₁ : strLeB a b = true)
    (h₂ : strLeB b c = true) : strLeB a c = true :=
  charListLe_trans a.data b.data c.data h₁ h₂

/-- Antisymmetry of `strLeB`. -/
theorem strLeB_antisymm {a b : String} (h₁ : strLeB a b = true)
    (h₂ : strLeB b a = true) : a = b :=
  String.ext (charListLe_antisymm a.data b.data h₁ h₂)

/-- Inserting permutes to consing. -/
theorem insertSorted_perm (x : String) : ∀ l, (insertSorted x l).Perm (x :: l)
  | [] => .refl _
  | y :: ys => by
    by_cases h : strLeB x y
    · simp [insertSorted, h]
    · simpa [insertSorted, h] using
        ((insertSorted_perm x ys).cons y).trans (List.Perm.swap x y ys)

/-- `sortStrings` permutes its input. -/
theorem sortStrings_perm : ∀ l : List String, (sortStrings l).Perm l
  | [] => .refl _
  | x :: xs => (insertSorted_perm x (sortStrings xs)).trans
      ((sortStrings_perm xs).cons x)

/-- Inserting preserves sortedness. -/
theorem insertSorted_sorted (x : String) : ∀ {l : List String},
    l.Pairwise (fun a b => strLeB a b = true) →
    (insertSorted x l).Pairwise (fun a b => strLeB a b = true) := by
  intro l
  induction l with
  | nil => intro _; simp [insertSorted]
  | cons y ys ih =>
    intro h
    rw [List.pairwise_cons] at h
    by_cases hxy : strLeB x y
    · simp only [insertSorted, hxy, if_true]
      refine List.Pairwise.cons ?_ (List.Pairwise.cons h.1 h.2)
      intro z hz
      rcases List.mem_cons.mp hz with hEq | hz
      · exact hEq ▸ hxy
      · exact strLeB_trans hxy (h.1 z hz)
    · have hyx : strLeB y x = true := (strLeB_total x y).resolve_left hxy
      simp only [insertSorted, hxy]
      rw [if_neg (by simp [hxy])]
      refine List.Pairwise.cons ?_ (ih h.2)
      intro z hz
      have hz' := (insertSorted_perm x ys).mem_iff.mp hz
      rcases List.mem_cons.mp hz' with hEq | hzys
      · exact hEq ▸ hyx
      · exact h.1 z hzys

/-- The output of `sortStrings` is sorted. -/
theorem sortStrings_sorted : ∀ l : List String,
    (sortStrings l).Pairwise (fun a b => strLeB a b = true)
  | [] => .nil
  | x :: xs => insertSorted_sorted x (sortStrings_sorted xs)

/-- Sorting is invariant under permutation: the byte-ascending sorted
arrangement of a key multiset is unique, so the embedding's insertion
sort agrees with Go's `sort.Strings` on every input. -/
theorem sortStrings_eq_of_perm {l₁ l₂ : List String} (h : l₁.Perm l₂) :
    sortStrings l₁ = sortStrings l₂ := by
  have p : (sortStrings l₁).Perm (sortStrings l₂) :=
    (sortStrings_perm l₁).trans (h.trans (sortStrings_perm l₂).symm)
  exact @List.eq_of_perm_of_sorted String (fun a b => strLeB a b = true)
    ⟨fun _ _ hab hba => strLeB_antisymm hab hba⟩ _ _ p
    (sortStrings_sorted l₁) (sortStrings_sorted l₂)

/-- Association lookup is permutation-invariant when keys are distinct. -/
theorem lookup_perm_eq {l₁ l₂ : List (String × String)} (h : l₁.Perm l₂) :
    (l₁.map Prod.fst).Nodup → ∀ k, l₁.lookup k = l₂.lookup k := by
  induction h with
  | nil => intro _ _; rfl
  | cons x h ih =>
    intro nd k
    obtain ⟨x1, x2⟩ := x
    simp only [List.map_cons, List.nodup_cons] at nd
    simp only [List.lookup]
    cases k == x1 <;> simp [ih nd.2 k]
  | swap a b l =>
    intro nd k
    obtain ⟨a1, a2⟩ := a
    obtain ⟨b1, b2⟩ := b
    simp only [List.map_cons, List.nodup_cons, List.mem_cons] at nd
    have hne : ¬(b1 = a1) := fun hEq => nd.1 (Or.inl hEq)
    simp only [List.lookup]
    cases hkb : k == b1 <;> cases hka : k == a1 <;> simp_all
  | trans h₁ h₂ ih₁ ih₂ =>
    intro nd k
    have nd₂ := ((h₁.map Prod.fst).nodup_iff).mp nd
    exact (ih₁ nd k).trans (ih₂ nd₂ k)

/-- The MD5 digest always has 16 bytes. -/
theorem md5Bytes_length (msg : List Nat) : (md5Bytes msg).length = 16 := by
  simp [md5Bytes, le4]

/-- Hex encoding doubles the length. -/
theorem flatMapByteHexU_length : ∀ l : List Nat,
    (l.flatMap byteHexU).length = 2 * l.length
  | [] => rfl
  | b :: bs => by
    simp [List.flatMap_cons, byteHexU, flatMapByteHexU_length bs]
    omega

/-- Uppercase-hex MD5 always yields 32 characters. -/
theorem md5HexUpper_length (msg : List Nat) : (md5HexUpper msg).length = 32 := by
  have h : (md5HexUpper msg).length = ((md5Bytes msg).flatMap byteHexU).length :=
    rfl
  rw [h, flatMapByteHexU_length, md5Bytes_length]

/-- Every symmetric signature is a 32-character string. -/
theorem generateSign_length (cfg : ShouqianbaConfig)
    (params : List (String × String)) (ty : String) :
    (generateSign cfg params ty).length = 32 :=
  md5HexUpper_length _

/-! ## C5 — symmetric signature algorithm -/

set_option maxRecDepth 1000000 in
/-- C5 counterexample: the claim says `GenerateSign` drops EXACTLY the
empty-valued entries and the meta fields `sign` and `sign_type`, but the
code also drops `flowT`, `flowSign` and `flow`.  On the params map
`{flow: "x"}` the code signs the string `&key=tk` while the claimed
algorithm signs `flow=x&key=tk`, and the resulting signatures differ. -/
theorem C5_drop_set_cex :
    generateSign ⟨"tk", "vk"⟩ [("flow", "x")] "terminal" ≠
      generateSignSpecOnly ⟨"tk", "vk"⟩ [("flow", "x")] "terminal" := by
  decide

/-- C5 (amended): `GenerateSign` drops exactly the empty-valued entries
and the meta fields `sign`, `sign_type`, `flowT`, `flowSign`, `flow`,
sorts the remaining keys ascending by byte value, joins them as `k=v`
pairs with `&`, appends `&key=<secret>` and returns the uppercase-hex
keyed digest; the result is identical for any two maps with the same
key-value contents (independent of iteration order) and is a non-empty
(32-character) string even when zero params qualify. -/
theorem C5_generateSign_contract :
    (∀ (cfg : ShouqianbaConfig) (ty : String) (p₁ p₂ : List (String × String)),
        p₁.Perm p₂ → (p₁.map Prod.fst).Nodup →
        generateSign cfg p₁ ty = generateSign cfg p₂ ty) ∧
    (∀ (cfg : ShouqianbaConfig) (ty : String)
        (params : List (String × String)) (k v : String),
        v = "" ∨ k = "sign" ∨ k = "sign_type" ∨ k = "flowT" ∨
          k = "flowSign" ∨ k = "flow" →
        generateSign cfg ((k, v) :: params) ty = generateSign cfg params ty) ∧
    (∀ (cfg : ShouqianbaConfig) (ty : String)
        (params : List (String × String)),
        (generateSign cfg params ty).length = 32) := by
  refine ⟨?_, ?_, fun cfg ty params => generateSign_length cfg params ty⟩
  · intro cfg ty p₁ p₂ h nd
    have hf : (p₁.filter keepParam).Perm (p₂.filter keepParam) :=
      List.Perm.filter keepParam h
    have ndf : ((p₁.filter keepParam).map Prod.fst).Nodup :=
      List.Nodup.sublist ((List.filter_sublist p₁).map Prod.fst) nd
    have hkeys : ((p₁.filter keepParam).map Prod.fst).Perm
        ((p₂.filter keepParam).map Prod.fst) := hf.map Prod.fst
    have hs : signStringOf p₁ (resolveSignKey cfg ty) =
        signStringOf p₂ (resolveSignKey cfg ty) := by
      simp only [signStringOf]
      rw [sortStrings_eq_of_perm hkeys]
      have hmap : ∀ k ∈ sortStrings ((p₂.filter keepParam).map Prod.fst),
          k ++ "=" ++ (((p₁.filter keepParam).lookup k).getD "") =
            k ++ "=" ++ (((p₂.filter keepParam).lookup k).getD "") :=
        fun k _ => by rw [lookup_perm_eq hf ndf k]
      rw [List.map_congr_left hmap]
    exact congrArg (fun s => md5HexUpper (strBytes s)) hs
  · intro cfg ty params k v hkv
    have hkp : keepParam (k, v) = false := by
      rcases hkv with rfl | rfl | rfl | rfl | rfl | rfl <;> simp [keepParam]
    have hfil : ((k, v) :: params).filter keepParam = params.filter keepParam := by
      simp [List.filter_cons, hkp]
    have hs : signStringOf ((k, v) :: params) (resolveSignKey cfg ty) =
        signStringOf params (resolveSignKey cfg ty) := by
      simp only [signStringOf]
      rw [hfil]
    exact congrArg (fun s => md5HexUpper (strBytes s)) hs

/-- Witness for C5: the amended contract at concrete inputs. -/
theorem C5_generateSign_contract_witness :
    generateSign ⟨"tk", "vk"⟩ [("b", "2"), ("a", "1")] "terminal" =
      generateSign ⟨"tk", "vk"⟩ [("a", "1"), ("b", "2")] "terminal" ∧
    generateSign ⟨"tk", "vk"⟩ [("flow", "x")] "vendor" =
      generateSign ⟨"tk", "vk"⟩ [] "vendor" ∧
    (generateSign ⟨"tk", "vk"⟩ [] "x").length = 32 :=
  ⟨C5_generateSign_contract.1 _ _ _ _ (List.Perm.swap _ _ _) (by decide),
   C5_generateSign_contract.2.1 _ _ _ _ _
     (Or.inr (Or.inr (Or.inr (Or.inr (Or.inr rfl))))),
   C5_generateSign_contract.2.2 _ _ _⟩

/-- `Forall₂` between a list and its image under `f`. -/
theorem forall₂_map_self {α : Type} (P : α → α → Prop) (f : α → α)
    (h : ∀ a, P a (f a)) : ∀ l : List α, List.Forall₂ P l (l.map f)
  | [] => .nil
  | a :: l => .cons (h a) (forall₂_map_self P f h l)

/-- `Forall₂` of a reflexive-at-each-element relation on a list with
itself. -/
theorem forall₂_self {α : Type} (P : α → α → Prop) (h : ∀ a, P a a) :
    ∀ l : List α, List.Forall₂ P l l
  | [] => .nil
  | a :: l => .cons (h a) (forall₂_self P h l)

/-- Re-setting an order's status to its current value is the identity. -/
theorem status_set_self (d : Donation) (s : String) (h : d.status = s) :
    { d with status := s } = d := by
  cases d
  simp_all

/-- `find?` by order id commutes with the status-only column update. -/
theorem find?_status_map (oid s : String) : ∀ db : DB,
    (db.map fun d =>
      if d.orderID == oid then { d with status := s } else d).find?
        (fun d => d.orderID == oid) =
      ((db.find? fun d => d.orderID == oid).map fun d =>
        { d with status := s })
  | [] => rfl
  | d :: rest => by
    by_cases h : (d.orderID == oid) = true
    · simp only [List.map_cons, List.find?, if_pos h]
      simp [h]
    · have hb : (d.orderID == oid) = false := by simpa using h
      simp only [List.map_cons, List.find?, hb, Bool.false_eq_true, if_false]
      exact find?_status_map oid s rest

/-- Reading back the order after `updateOrderStatus`: the status column
holds the written value, everything else is the stored row. -/
theorem findDonation_updateOrderStatus (db : DB) (oid s : String) :
    findDonation (updateOrderStatus db oid s) oid =
      (findDonation db oid).map fun d => { d with status := s } := by
  unfold updateOrderStatus updateOrderStatusT findDonation
  cases hfd : db.find? (fun d => d.orderID == oid) with
  | none =>
    dsimp only [Option.map]
    exact hfd
  | some d =>
    dsimp only
    by_cases hst : d.status ≠ s
    · rw [if_pos hst]
      exact (find?_status_map oid s db).trans (by rw [hfd])
    · rw [if_neg hst]
      push_neg at hst
      rw [hfd]
      dsimp only [Option.map]
      rw [status_set_self d s hst]

/-- `updateOrderStatus` is idempotent. -/
theorem updateOrderStatus_idem (db : DB) (oid s : String) :
    updateOrderStatus (updateOrderStatus db oid s) oid s =
      updateOrderStatus db oid s := by
  have hf := findDonation_updateOrderStatus db oid s
  set db' := updateOrderStatus db oid s with hdb'
  conv_lhs => rw [updateOrderStatus, updateOrderStatusT]
  rw [hf]
  cases findDonation db oid with
  | none => rfl
  | some d =>
    dsimp only [Option.map]
    rw [if_neg (by simp)]

/-! ## C1 — sticky terminal state -/

/-- C1: the claim (and the spec invariant) says a persisted `completed`
status is never replaced by `unknown`, but `updateOrderStatus` has no
terminal-state guard: on an order whose status is `completed`, a poller
tick whose query result carries an unrecognized `order_status` maps it
to `unknown` and overwrites the terminal status.  This theorem evaluates
the embedded code at that failing input. -/
theorem C1_sticky_terminal_code_bug :
    c1Order.status = "completed" ∧
    ((updateOrderStatusFromQuery [c1Order] [] "ORD1" c1QueryResult).db.map
        Donation.status) = ["unknown"] ∧
    (updateOrderStatus [c1Order] "ORD1" "unknown").map Donation.status =
      ["unknown"] := by
  decide

/-! ## C9 — frame effect of `updateOrderStatus` -/

/-- C9: `updateOrderStatus` writes only the `status` column of the rows
matching the order id, leaving every other field of every row and every
other order unchanged; a missing order id or an unchanged status leaves
the store entirely unchanged. -/
theorem C9_updateOrderStatus_frame (db : DB) (oid st : String) :
    (findDonation db oid = none → updateOrderStatus db oid st = db) ∧
    (∀ d, findDonation db oid = some d → d.status = st →
        updateOrderStatus db oid st = db) ∧
    List.Forall₂ (fun d d' : Donation =>
        d'.openID = d.openID ∧ d'.amount = d.amount ∧
        d'.payment = d.payment ∧ d'.paymentConfigID = d.paymentConfigID ∧
        d'.categories = d.categories ∧ d'.blessing = d.blessing ∧
        d'.orderID = d.orderID ∧ d'.payerUID = d.payerUID ∧
        d'.createdAt = d.createdAt ∧ (d.orderID ≠ oid → d' = d))
      db (updateOrderStatus db oid st) := by
  refine ⟨?_, ?_, ?_⟩
  · intro h
    unfold updateOrderStatus updateOrderStatusT
    rw [h]
  · intro d hd hst
    unfold updateOrderStatus updateOrderStatusT
    rw [hd]
    simp [hst]
  · have hcases : updateOrderStatus db oid st = db ∨
        updateOrderStatus db oid st =
          db.map fun d =>
            if d.orderID == oid then { d with status := st } else d := by
      unfold updateOrderStatus updateOrderStatusT
      cases findDonation db oid with
      | none => exact Or.inl rfl
      | some d =>
        by_cases hst : d.status ≠ st
        · right
          simp [hst]
        · left
          simp [hst]
    rcases hcases with h | h <;> rw [h]
    · exact forall₂_self _
        (fun a => ⟨rfl, rfl, rfl, rfl, rfl, rfl, rfl, rfl, rfl,
          fun _ => rfl⟩) db
    · refine forall₂_map_self _ _ ?_ db
      intro a
      by_cases ha : (a.orderID == oid) = true
      · rw [if_pos ha]
        exact ⟨rfl, rfl, rfl, rfl, rfl, rfl, rfl, rfl, rfl,
          fun hne => (hne (eq_of_beq ha)).elim⟩
      · rw [if_neg ha]
        exact ⟨rfl, rfl, rfl, rfl, rfl, rfl, rfl, rfl, rfl, fun _ => rfl⟩

/-- Witness for C9: on a store holding one completed order, re-writing
the same status leaves the store unchanged. -/
theorem C9_updateOrderStatus_frame_witness :
    updateOrderStatus [w1Order] "W1" "completed" = [w1Order] :=
  (C9_updateOrderStatus_frame _ "W1" "completed").2.1 _ rfl rfl

/-! ## C6 — order-creation amount contract -/

/-- C6: `CreateOrder` rejects exactly the amounts outside
`[0.01, 10000]`; every accepted amount is converted to minor units by
round-half-up (`math.Round` coincides with half-up on the accepted,
positive range) floored to a minimum of 1 minor unit; the four boundary
points behave as claimed.  Amounts are modelled exactly (as `ℚ`) rather
than as `float64`; none of the claimed boundary points is
float-sensitive. -/
theorem C6_amount_contract :
    (∀ a : ℚ, createOrderAmountToMinor a = none ↔
        (a < 1 / 100 ∨ a > 10000)) ∧
    (∀ a : ℚ, 1 / 100 ≤ a → a ≤ 10000 →
        createOrderAmountToMinor a = some (max 1 ⌊a * 100 + 1 / 2⌋)) ∧
    createOrderAmountToMinor (1 / 100) = some 1 ∧
    createOrderAmountToMinor (9 / 1000) = none ∧
    createOrderAmountToMinor 10000 = some 1000000 ∧
    createOrderAmountToMinor (1000001 / 100) = none := by
  refine ⟨?_, ?_, ?_, ?_, ?_, ?_⟩
  · intro a
    by_cases hcond : a < 1 / 100 ∨ a > 10000
    · unfold createOrderAmountToMinor
      rw [if_pos hcond]
      exact iff_of_true rfl hcond
    · unfold createOrderAmountToMinor
      rw [if_neg hcond]
      exact iff_of_false (by simp) hcond
  · intro a h₁ h₂
    have hc : ¬(a < 1 / 100 ∨ a > 10000) := by
      push_neg
      exact ⟨h₁, h₂⟩
    have hpos : (0 : ℚ) ≤ a * 100 := by nlinarith
    unfold createOrderAmountToMinor goRound
    rw [if_neg hc, if_pos hpos]
    show some (if (⌊a * 100 + 1 / 2⌋ : ℤ) < 1 then 1 else ⌊a * 100 + 1 / 2⌋) =
      some (max 1 ⌊a * 100 + 1 / 2⌋)
    congr 1
    rcases le_or_lt 1 ⌊a * 100 + 1 / 2⌋ with h | h
    · rw [if_neg (by omega), max_eq_right h]
    · rw [if_pos h, max_eq_left (by omega)]
  · norm_num [createOrderAmountToMinor, goRound]
  · norm_num [createOrderAmountToMinor, goRound]
  · norm_num [createOrderAmountToMinor, goRound]
  · norm_num [createOrderAmountToMinor, goRound]

/-- Witness for C6: the accepted amount 0.50 converts to 50 minor
units. -/
theorem C6_amount_contract_witness :
    createOrderAmountToMinor (1 / 2) =
      some (max 1 ⌊(1 / 2 : ℚ) * 100 + 1 / 2⌋) :=
  C6_amount_contract.2.1 (1 / 2) (by norm_num) (by norm_num)

/-! ## C7 — polling schedule -/

/-- C7: the poller sleeps 5 seconds before its first query; every
continuing tick sleeps exactly 3 seconds while `elapsed ≤ 60` and 10
seconds once `elapsed > 60` (in particular 3 at `elapsed = 0` and 10 at
`elapsed = 61`); once `elapsed` reaches 361 seconds the loop breaks
without sleeping and without touching the store; and the expiry phase
afterwards performs at most one query. -/
theorem C7_polling_schedule :
    initialPollDelaySeconds = 5 ∧
    (∀ (db : DB) (b : List String) (oid : String) (elapsed : Nat)
        (fq : Bool) (qres : Option JObj) (sec : Nat),
        (pollIteration db b oid elapsed fq qres).action =
          .sleepThenContinue sec →
        sec = if elapsed > 60 then 10 else 3) ∧
    (∀ db b oid fq, (pollIteration db b oid 0 fq none).action =
        .sleepThenContinue 3) ∧
    (∀ db b oid fq, (pollIteration db b oid 61 fq none).action =
        .sleepThenContinue 10) ∧
    (∀ (db : DB) (b : List String) (oid : String) (elapsed : Nat)
        (fq : Bool) (qres : Option JObj), 361 ≤ elapsed →
        (pollIteration db b oid elapsed fq qres).action = .breakLoop ∧
        (pollIteration db b oid elapsed fq qres).db = db) ∧
    (∀ (db : DB) (oid : String) (qres : Option JObj),
        (pollFinalPhase db oid qres).queries ≤ 1) := by
  refine ⟨rfl, ?_, fun db b oid fq => rfl, fun db b oid fq => rfl, ?_, ?_⟩
  · intro db b oid elapsed fq qres sec h
    have hcases : (pollIteration db b oid elapsed fq qres).action =
          .breakLoop ∨
        (pollIteration db b oid elapsed fq qres).action = .stopTerminal ∨
        (pollIteration db b oid elapsed fq qres).action =
          .sleepThenContinue (if elapsed > 60 then 10 else 3) := by
      unfold pollIteration
      by_cases h360 : elapsed > maxPollingSeconds
      · rw [if_pos h360]
        left
        rfl
      · rw [if_neg h360]
        cases qres with
        | none =>
          right
          right
          rfl
        | some r =>
          dsimp only
          split
          · right
            left
            rfl
          · split
            · left
              rfl
            · split
              · left
                rfl
              · right
                right
                rfl
    rcases hcases with h' | h' | h'
    · rw [h'] at h
      exact PollAction.noConfusion h
    · rw [h'] at h
      exact PollAction.noConfusion h
    · have := h'.symm.trans h
      injection this with hs
      exact hs.symm
  · intro db b oid elapsed fq qres h
    have h360 : elapsed > maxPollingSeconds := by
      unfold maxPollingSeconds
      omega
    unfold pollIteration
    rw [if_pos h360]
    exact ⟨rfl, rfl⟩
  · intro db oid qres
    unfold pollFinalPhase
    split <;> split
    all_goals
      dsimp only
      first
      | exact Nat.zero_le 1
      | exact Nat.le_refl 1
      | (split_ifs <;>
          first
          | exact Nat.zero_le 1
          | exact Nat.le_refl 1
          | (split <;>
              first
              | exact Nat.zero_le 1
              | exact Nat.le_refl 1
              | (split_ifs <;>
                  first
                  | exact Nat.zero_le 1
                  | exact Nat.le_refl 1)))

/-- Witness for C7: a tick at 30 seconds sleeps 3 seconds; the expiry
phase on an empty store performs at most one query. -/
theorem C7_polling_schedule_witness :
    (3 : Nat) = (if 30 > 60 then 10 else 3) ∧
    (pollIteration [] [] "O" 400 false none).action = .breakLoop ∧
    (pollFinalPhase [] "O" none).queries ≤ 1 :=
  ⟨C7_polling_schedule.2.1 [] [] "O" 30 false none 3 rfl,
   (C7_polling_schedule.2.2.2.2.1 [] [] "O" 400 false none (by decide)).1,
   C7_polling_schedule.2.2.2.2.2 [] "O" none⟩

/-! ## C4 — filtered broadcast matching -/

/-- C4 counterexample: the claim says a subscriber receives exactly when
each of its FILTER axes is empty or equal to the notification's tag, so
the subscriber with filter `(payment="2", categories="")` should receive
a notification tagged `(payment="2", categories="5")`; but
`BroadcastToSpecific` treats an empty NOTIFICATION tag (not an empty
subscriber filter) as match-all, and sends that notification to neither
subscriber. -/
theorem C4_filter_cex :
    claimReceives ⟨"conn2", "2", ""⟩ "2" "5" = true ∧
    broadcastToSpecificTargets
      [⟨"conn2", "2", ""⟩, ⟨"conn1", "1", ""⟩] "2" "5" = [] := by
  decide

/-- C4 (amended): `BroadcastToSpecific` sends a notification tagged
`(payment, categories)` to exactly the registered subscribers for which,
on each axis, the NOTIFICATION tag is empty (match-all) or the
subscriber's filter equals the tag; in particular a subscriber with
filter `(payment="2", categories="")` does NOT receive a notification
tagged `(payment="2", categories="5")`, a subscriber with filter
`(payment="1", categories="")` does not either, and a subscriber with
filter `(payment="2", categories="5")` does. -/
theorem C4_broadcast_filter :
    (∀ (clients : List ClientConn) (payment categories : String)
        (c : ClientConn),
        c ∈ broadcastToSpecificTargets clients payment categories ↔
          c ∈ clients ∧ (payment = "" ∨ c.payment = payment) ∧
            (categories = "" ∨ c.categories = categories)) ∧
    broadcastToSpecificTargets
      [⟨"conn2", "2", ""⟩, ⟨"conn1", "1", ""⟩, ⟨"conn3", "2", "5"⟩]
      "2" "5" = [⟨"conn3", "2", "5"⟩] := by
  constructor
  · intro clients payment categories c
    simp only [broadcastToSpecificTargets, List.mem_filter,
      Bool.and_eq_true, Bool.or_eq_true, beq_iff_eq]
  · decide

/-- Witness for C4: a subscriber whose filter equals both tags is a
broadcast target. -/
theorem C4_broadcast_filter_witness :
    (⟨"connA", "2", "5"⟩ : ClientConn) ∈
      broadcastToSpecificTargets [⟨"connA", "2", "5"⟩] "2" "5" :=
  (C4_broadcast_filter.1 _ "2" "5" _).mpr
    ⟨by decide, Or.inr rfl, Or.inr rfl⟩

/-! ## C2 — idempotent terminal application -/

set_option maxRecDepth 1000000 in
/-- C2 counterexample: delivering the same alipay success webhook twice
leaves the persisted order in the same final state and enrichment fires
only on the first delivery, but the route handler's broadcast runs on
BOTH acknowledged deliveries, so the broadcast side effect fires twice
across the two deliveries — the claim says at most once in total. -/
theorem C2_idempotence_cex :
    aliDelivery1.db.map Donation.status = ["completed"] ∧
    aliDelivery2.db = aliDelivery1.db ∧
    countEnrich aliDelivery1.events + countEnrich aliDelivery2.events = 1 ∧
    countBroadcasts aliDelivery1.events = 1 ∧
    countBroadcasts aliDelivery2.events = 1 ∧
    ¬(countBroadcasts aliDelivery1.events +
        countBroadcasts aliDelivery2.events ≤ 1) := by
  decide

/-- C2 (amended): a duplicate success webhook on a completed order
leaves the persisted order unchanged and performs neither enrichment nor
any store write (the reconciler returns right after verification); the
polling path is fully idempotent — reapplying the same query result
leaves the store and the broadcast marker set fixed; but the webhook
route's broadcast is NOT deduplicated: every acknowledged non-wechat
delivery broadcasts exactly once, so two deliveries broadcast twice. -/
theorem C2_idempotent_terminal :
    (∀ (ext : Ext) (db : DB) (data : JObj) (auth : String)
        (raw : List Nat) (d : Donation),
        ext.rsaVerify raw auth = true →
        resolveOrderIDSvc data ≠ "" →
        findDonation db (resolveOrderIDSvc data) = some d →
        d.status = "completed" →
        handleCallbackWithPublicKeyM ext db data auth raw =
          ⟨true, db, [.sigVerifyAsym true]⟩) ∧
    (∀ (db : DB) (data : JObj) (oid : String),
        countBroadcasts (routeAsyncTail db data oid) =
          if (getObj data "wechat").isSome then 0 else 1) ∧
    (∀ (db : DB) (b : List String) (oid : String) (r : JObj),
        (updateOrderStatusFromQuery
            (updateOrderStatusFromQuery db b oid r).db
            (updateOrderStatusFromQuery db b oid r).broadcasted oid r).db =
          (updateOrderStatusFromQuery db b oid r).db ∧
        (updateOrderStatusFromQuery
            (updateOrderStatusFromQuery db b oid r).db
            (updateOrderStatusFromQuery db b oid r).broadcasted oid
            r).broadcasted =
          (updateOrderStatusFromQuery db b oid r).broadcasted) := by
  refine ⟨?_, ?_, ?_⟩
  · intro ext db data auth raw d hr hoid hfind hst
    unfold handleCallbackWithPublicKeyM
    rw [if_neg (by simp [hr])]
    rw [if_neg hoid, hfind]
    dsimp only
    rw [if_pos hst]
  · intro db data oid
    have haux : ∀ (c : Prop) (inst : Decidable c),
        countBroadcasts (Ev.stubUpdate ::
          (if c then [Ev.broadcastSend true]
           else [Ev.broadcastSend false])) = 1 := by
      intro c inst
      by_cases hc : c
      · rw [if_pos hc]
        rfl
      · rw [if_neg hc]
        rfl
    unfold routeAsyncTail
    dsimp only
    by_cases hw : (getObj data "wechat").isSome
    · have hali : ¬(¬(getObj data "wechat").isSome = true ∧
          (getObj data "alipay").isSome = true) := fun hcon => hcon.1 hw
      rw [if_neg hali, if_pos hw, if_pos hw]
      rfl
    · by_cases ha : (getObj data "alipay").isSome
      · have hali : ¬(getObj data "wechat").isSome = true ∧
            (getObj data "alipay").isSome = true := ⟨hw, ha⟩
        rw [if_pos hali, if_neg hw]
        exact haux _ _
      · have hali : ¬(¬(getObj data "wechat").isSome = true ∧
            (getObj data "alipay").isSome = true) := fun hcon => ha hcon.2
        rw [if_neg hali, if_neg hw, if_neg hw]
        exact haux _ _
  · intro db b oid r
    unfold updateOrderStatusFromQuery
    cases hbz : getObj r "biz_response" with
    | none => exact ⟨rfl, rfl⟩
    | some biz =>
      dsimp only
      by_cases hfail : (getStr biz "result_code").getD "" = "FAIL"
      · simp only [if_pos hfail]
        by_cases herr :
            (getStr biz "error_code").getD "" = "UPAY_ORDER_NOT_EXISTS"
        · simp only [if_pos herr]
          exact ⟨updateOrderStatus_idem db oid "failed", trivial⟩
        · simp only [if_neg herr]
          exact ⟨by first | rfl | trivial, by first | rfl | trivial⟩
      · simp only [if_neg hfail]
        cases hdata : getObj biz "data" with
        | none => exact ⟨rfl, rfl⟩
        | some data =>
          dsimp only
          cases hos : getStr data "order_status" with
          | none => exact ⟨rfl, rfl⟩
          | some os =>
            dsimp only
            set st := if os = "PAID" then "completed"
              else if os = "PAY_CANCELED" then "failed"
              else if os = "CREATED" ∨ os = "PAY_ERROR" then "pending"
              else "unknown" with hstdef
            by_cases hguard :
                st ≠ "pending" ∨ os = "PAID" ∨ os = "PAY_CANCELED"
            · simp only [if_pos hguard]
              simp only [updateOrderStatus_idem]
              refine ⟨by first | rfl | trivial, ?_⟩
              by_cases hc : st = "completed"
              · simp only [if_pos hc]
                cases hdn : findDonation (updateOrderStatus db oid st) oid
                  with
                | none => rfl
                | some dn =>
                  dsimp only
                  by_cases hwc : dn.payment = "wechat"
                  · simp only [if_pos hwc]
                    by_cases hcont : b.contains oid
                    · simp only [if_pos hcont]
                    · simp only [if_neg hcont]
                      rw [if_pos (by simp)]
                  · simp only [if_neg hwc]
              · simp only [if_neg hc]
            · simp only [if_neg hguard]
              exact ⟨by first | rfl | trivial, by first | rfl | trivial⟩

/-- Witness for C2: a duplicate webhook on a store holding one completed
order is acknowledged with no store write and no enrichment. -/
theorem C2_idempotent_terminal_witness :
    handleCallbackWithPublicKeyM extAllOk [w1Order]
        [("client_sn", JVal.str "W1")] "A" [] =
      ⟨true, [w1Order], [.sigVerifyAsym true]⟩ :=
  C2_idempotent_terminal.1 extAllOk [w1Order]
    [("client_sn", JVal.str "W1")] "A" [] w1Order rfl (by decide) rfl rfl

/-- Membership bound for the reconciler's non-duplicate event list. -/
theorem svcEvents_bound (a : Ev) (c1 c2 : Prop) [Decidable c1]
    [Decidable c2] (p : Ev → Bool) (ha : p a = true)
    (h1 : p Ev.enrichDispatch = true) (h2 : p Ev.dbUpdate = true)
    (h3 : p Ev.dbStatusWrite = true) (e : Ev)
    (he : e ∈ [a] ++ (if c1 then [Ev.enrichDispatch] else []) ++
        [Ev.dbUpdate] ++ (if c2 then [Ev.dbStatusWrite] else [])) :
    p e = true := by
  rcases List.mem_append.mp he with hx | hx
  · rcases List.mem_append.mp hx with hy | hy
    · rcases List.mem_append.mp hy with hz | hz
      · simp at hz
        subst hz
        exact ha
      · split at hz
        · simp at hz
          subst hz
          exact h1
        · simp at hz
    · simp at hy
      subst hy
      exact h2
  · split at hx
    · simp at hx
      subst hx
      exact h3
    · simp at hx

/-- Membership bound for a broadcast-decision list. -/
theorem tailEvents_bound (c : Prop) [Decidable c] (e : Ev)
    (he : e ∈ (if c then [Ev.broadcastSend true]
        else [Ev.broadcastSend false])) : asyncTailEv e = true := by
  split at he <;> (simp at he; subst he; rfl)

/-- Every event emitted by the asymmetric reconciler is one of its own
(verification, enrichment dispatch, store writes). -/
theorem mem_asym_events (ext : Ext) (db : DB) (data : JObj) (auth : String)
    (raw : List Nat) (e : Ev)
    (he : e ∈ (handleCallbackWithPublicKeyM ext db data auth raw).events) :
    asymEv e = true := by
  unfold handleCallbackWithPublicKeyM at he
  dsimp only at he
  split at he
  · simp at he
    subst he
    rfl
  · split at he
    · simp at he
      subst he
      rfl
    · split at he
      · simp at he
        subst he
        rfl
      · split at he
        · simp at he
          subst he
          rfl
        · exact svcEvents_bound (Ev.sigVerifyAsym true) _ _ asymEv rfl rfl
            rfl rfl e he

/-- Every event emitted by the symmetric reconciler is one of its own. -/
theorem mem_sym_events (ext : Ext) (cfg : ShouqianbaConfig) (db : DB)
    (data : JObj) (e : Ev)
    (he : e ∈ (handleCallbackM ext cfg db data).events) : symEv e = true := by
  unfold handleCallbackM at he
  dsimp only at he
  split at he
  · simp at he
    subst he
    rfl
  · split at he
    · simp at he
      subst he
      rfl
    · split at he
      · simp at he
        subst he
        rfl
      · split at he
        · simp at he
          subst he
          rfl
        · exact svcEvents_bound (Ev.sigVerifySym true) _ _ symEv rfl rfl
            rfl rfl e he

/-- Every event of the asynchronous tail is the stub update or a
broadcast send. -/
theorem mem_tail_events (db : DB) (data : JObj) (oid : String) (e : Ev)
    (he : e ∈ routeAsyncTail db data oid) : asyncTailEv e = true := by
  unfold routeAsyncTail at he
  dsimp only at he
  rcases List.mem_cons.mp he with h | h
  · subst h
    rfl
  · split at h
    · exact tailEvents_bound _ e h
    · split at h
      · simp at h
      · exact tailEvents_bound _ e h

/-- Reconciler events are synchronous, are not responses, and are never
symmetric-verification events. -/
theorem asymEv_props (e : Ev) (h : asymEv e = true) :
    asyncTailEv e = false ∧ e ≠ Ev.ack ∧ e ≠ Ev.rejectResp ∧
      ∀ ok, e ≠ Ev.sigVerifySym ok := by
  cases e <;> simp_all [asymEv, asyncTailEv]

/-- Symmetric reconciler events are synchronous and are not responses. -/
theorem symEv_props (e : Ev) (h : symEv e = true) :
    asyncTailEv e = false ∧ e ≠ Ev.ack ∧ e ≠ Ev.rejectResp := by
  cases e <;> simp_all [symEv, asyncTailEv]

/-- Async-tail events are not responses and are never verification
events. -/
theorem tailEv_props (e : Ev) (h : asyncTailEv e = true) :
    e ≠ Ev.ack ∧ e ≠ Ev.rejectResp ∧ ∀ ok, e ≠ Ev.sigVerifySym ok := by
  cases e <;> simp_all [asyncTailEv]

/-! ## C3 — webhook acknowledgment order -/

set_option maxRecDepth 1000000 in
/-- C3 counterexample: on a verified success webhook for a pending
order, the trace of the route handler performs the order-status database
write (the `Updates` call inside `HandleCallbackWithPublicKey`) BEFORE
writing the success acknowledgment; the claim says the acknowledgment
comes first. -/
theorem C3_ack_order_cex :
    aliDelivery1.events = [.sigVerifyAsym true, .enrichDispatch,
      .dbUpdate, .ack, .stubUpdate, .broadcastSend true] ∧
    evIdx aliDelivery1.events Ev.dbUpdate <
      evIdx aliDelivery1.events Ev.ack := by
  decide

/-- C3 (amended): for every webhook whose signature verifies (on either
path), the route handler writes the success acknowledgment AFTER the
synchronous order-status database write performed inside the
verification call, but BEFORE the asynchronous stub-update/broadcast
tail; the tail contains no response events, so a failure of the
asynchronous work can never change the acknowledgment already sent. -/
theorem C3_ack_after_sync_write :
    (∀ (ext : Ext) (cfg : ShouqianbaConfig) (db : DB) (auth : String)
        (data : JObj) (rawBody : List Nat),
        isSuccessStatus (resolveStatusRoute data) = true → auth ≠ "" →
        (handleCallbackWithPublicKeyM ext db data auth rawBody).ok = true →
        (routeHandleCallback ext cfg db auth (some data) rawBody).events =
          (handleCallbackWithPublicKeyM ext db data auth rawBody).events ++
            [Ev.ack] ++
            routeAsyncTail
              (handleCallbackWithPublicKeyM ext db data auth rawBody).db
              data (resolveOrderIDRoute data) ∧
        (∀ e ∈ (handleCallbackWithPublicKeyM ext db data auth
            rawBody).events, asyncTailEv e = false) ∧
        (∀ e ∈ routeAsyncTail
            (handleCallbackWithPublicKeyM ext db data auth rawBody).db data
            (resolveOrderIDRoute data),
            e ≠ Ev.ack ∧ e ≠ Ev.rejectResp) ∧
        (routeHandleCallback ext cfg db auth (some data)
            rawBody).statusCode = 200) ∧
    (∀ (ext : Ext) (cfg : ShouqianbaConfig) (db : DB) (data : JObj)
        (rawBody : List Nat) (s : String),
        isSuccessStatus (resolveStatusRoute data) = true →
        getStr data "sign" = some s → s ≠ "" →
        (handleCallbackM ext cfg db data).ok = true →
        (routeHandleCallback ext cfg db "" (some data) rawBody).events =
          (handleCallbackM ext cfg db data).events ++ [Ev.ack] ++
            routeAsyncTail (handleCallbackM ext cfg db data).db data
              (resolveOrderIDRoute data) ∧
        (∀ e ∈ (handleCallbackM ext cfg db data).events,
            asyncTailEv e = false) ∧
        (routeHandleCallback ext cfg db "" (some data)
            rawBody).statusCode = 200) := by
  constructor
  · intro ext cfg db auth data rawBody hsucc hauth hok
    have hroute : routeHandleCallback ext cfg db auth (some data) rawBody =
        ⟨200, "success",
          (handleCallbackWithPublicKeyM ext db data auth rawBody).db,
          (handleCallbackWithPublicKeyM ext db data auth rawBody).events ++
            [Ev.ack] ++
            routeAsyncTail
              (handleCallbackWithPublicKeyM ext db data auth rawBody).db
              data (resolveOrderIDRoute data)⟩ := by
      unfold routeHandleCallback
      dsimp only
      rw [if_neg (by simp [hsucc]), if_pos hauth, if_neg (by simp [hok])]
    rw [hroute]
    refine ⟨rfl, ?_, ?_, rfl⟩
    · intro e he
      exact (asymEv_props e (mem_asym_events ext db data auth rawBody e
        he)).1
    · intro e he
      have h := tailEv_props e (mem_tail_events _ _ _ e he)
      exact ⟨h.1, h.2.1⟩
  · intro ext cfg db data rawBody s hsucc hsign hs hok
    have hroute : routeHandleCallback ext cfg db "" (some data) rawBody =
        ⟨200, "success", (handleCallbackM ext cfg db data).db,
          (handleCallbackM ext cfg db data).events ++ [Ev.ack] ++
            routeAsyncTail (handleCallbackM ext cfg db data).db data
              (resolveOrderIDRoute data)⟩ := by
      unfold routeHandleCallback
      dsimp only
      rw [if_neg (by simp [hsucc]), if_neg (by simp), hsign]
      dsimp only
      rw [if_pos hs, if_neg (by simp [hok])]
    rw [hroute]
    refine ⟨rfl, ?_, rfl⟩
    intro e he
    exact (symEv_props e (mem_sym_events ext cfg db data e he)).1

/-- Witness for C3: the amended ordering at the concrete alipay
delivery. -/
theorem C3_ack_after_sync_write_witness :
    (routeHandleCallback extAllOk testCfg [aliOrder] "AUTH"
      (some aliWebhook) []).statusCode = 200 :=
  (C3_ack_after_sync_write.1 extAllOk testCfg [aliOrder] "AUTH" aliWebhook
    [] (by decide) (by decide) (by decide)).2.2.2

/-! ## C8 — webhook signature gate -/

/-- The asymmetric reconciler either reports success or leaves the
store untouched. -/
theorem handleCallbackWithPublicKeyM_err_db (ext : Ext) (db : DB)
    (data : JObj) (auth : String) (raw : List Nat) :
    (handleCallbackWithPublicKeyM ext db data auth raw).ok = true ∨
      (handleCallbackWithPublicKeyM ext db data auth raw).db = db := by
  unfold handleCallbackWithPublicKeyM
  dsimp only
  split
  · exact Or.inr rfl
  · split
    · exact Or.inr rfl
    · split
      · exact Or.inr rfl
      · split
        · exact Or.inl rfl
        · exact Or.inl rfl

/-- The symmetric reconciler either reports success or leaves the store
untouched. -/
theorem handleCallbackM_err_db (ext : Ext) (cfg : ShouqianbaConfig)
    (db : DB) (data : JObj) :
    (handleCallbackM ext cfg db data).ok = true ∨
      (handleCallbackM ext cfg db data).db = db := by
  unfold handleCallbackM
  dsimp only
  split
  · exact Or.inr rfl
  · split
    · exact Or.inr rfl
    · split
      · exact Or.inr rfl
      · split
        · exact Or.inl rfl
        · exact Or.inl rfl

set_option maxRecDepth 1000000 in
/-- C8 counterexample: a webhook with NO signature of either kind, but
whose reported status is not in the success whitelist, is acknowledged
200 `success` rather than rejected — the signature gate is applied only
to success-status webhooks (the store is indeed left unchanged). -/
theorem C8_unsigned_ack_cex :
    getStr failedUnsignedWebhook "sign" = none ∧
    (routeHandleCallback extAllOk testCfg [aliOrder] ""
        (some failedUnsignedWebhook) []).statusCode = 200 ∧
    (routeHandleCallback extAllOk testCfg [aliOrder] ""
        (some failedUnsignedWebhook) []).body = "success" ∧
    (routeHandleCallback extAllOk testCfg [aliOrder] ""
        (some failedUnsignedWebhook) []).db = [aliOrder] := by
  decide

/-- C8 (amended): the signature gate holds for SUCCESS-status webhooks —
missing signature (no Authorization header and a missing or empty
embedded `sign`) is rejected 403 `missing sign` with no store mutation;
a failing symmetric or asymmetric verification is rejected 403 with no
store mutation; but a webhook whose status is outside the success
whitelist is acknowledged 200 `success` without any signature check
(also with no store mutation). -/
theorem C8_signature_gate :
    (∀ (ext : Ext) (cfg : ShouqianbaConfig) (db : DB) (data : JObj)
        (rawBody : List Nat),
        isSuccessStatus (resolveStatusRoute data) = true →
        (getStr data "sign" = none ∨ getStr data "sign" = some "") →
        (routeHandleCallback ext cfg db "" (some data)
            rawBody).statusCode = 403 ∧
        (routeHandleCallback ext cfg db "" (some data) rawBody).body =
          "missing sign" ∧
        (routeHandleCallback ext cfg db "" (some data) rawBody).db = db) ∧
    (∀ (ext : Ext) (cfg : ShouqianbaConfig) (db : DB) (data : JObj)
        (rawBody : List Nat) (s : String),
        isSuccessStatus (resolveStatusRoute data) = true →
        getStr data "sign" = some s → s ≠ "" →
        (handleCallbackM ext cfg db data).ok = false →
        (routeHandleCallback ext cfg db "" (some data)
            rawBody).statusCode = 403 ∧
        (routeHandleCallback ext cfg db "" (some data) rawBody).db = db) ∧
    (∀ (ext : Ext) (cfg : ShouqianbaConfig) (db : DB) (auth : String)
        (data : JObj) (rawBody : List Nat),
        isSuccessStatus (resolveStatusRoute data) = true → auth ≠ "" →
        (handleCallbackWithPublicKeyM ext db data auth rawBody).ok =
          false →
        (routeHandleCallback ext cfg db auth (some data)
            rawBody).statusCode = 403 ∧
        (routeHandleCallback ext cfg db auth (some data) rawBody).db =
          db) ∧
    (∀ (ext : Ext) (cfg : ShouqianbaConfig) (db : DB) (auth : String)
        (data : JObj) (rawBody : List Nat),
        isSuccessStatus (resolveStatusRoute data) = false →
        routeHandleCallback ext cfg db auth (some data) rawBody =
          ⟨200, "success", db, [Ev.ack]⟩) := by
  refine ⟨?_, ?_, ?_, ?_⟩
  · intro ext cfg db data rawBody hsucc hsign
    unfold routeHandleCallback
    dsimp only
    rw [if_neg (by simp [hsucc]), if_neg (by simp)]
    rcases hsign with h | h
    · rw [h]
      exact ⟨rfl, rfl, rfl⟩
    · rw [h]
      dsimp only
      rw [if_neg (by simp)]
      exact ⟨rfl, rfl, rfl⟩
  · intro ext cfg db data rawBody s hsucc hsign hs hnok
    have hdb : (handleCallbackM ext cfg db data).db = db := by
      rcases handleCallbackM_err_db ext cfg db data with h | h
      · rw [hnok] at h
        exact absurd h (by simp)
      · exact h
    unfold routeHandleCallback
    dsimp only
    rw [if_neg (by simp [hsucc]), if_neg (by simp), hsign]
    dsimp only
    rw [if_pos hs, if_pos (by simp [hnok])]
    exact ⟨rfl, hdb⟩
  · intro ext cfg db auth data rawBody hsucc hauth hnok
    have hdb : (handleCallbackWithPublicKeyM ext db data auth
        rawBody).db = db := by
      rcases handleCallbackWithPublicKeyM_err_db ext db data auth rawBody
        with h | h
      · rw [hnok] at h
        exact absurd h (by simp)
      · exact h
    unfold routeHandleCallback
    dsimp only
    rw [if_neg (by simp [hsucc]), if_pos hauth, if_pos (by simp [hnok])]
    exact ⟨rfl, hdb⟩
  · intro ext cfg db auth data rawBody hns
    unfold routeHandleCallback
    dsimp only
    rw [if_pos (by simp [hns])]

/-- Witness for C8: a success-status webhook with no signature of
either kind is rejected 403. -/
theorem C8_signature_gate_witness :
    (routeHandleCallback extAllOk testCfg [aliOrder] ""
        (some successUnsignedWebhook) []).statusCode = 403 :=
  (C8_signature_gate.1 extAllOk testCfg [aliOrder] successUnsignedWebhook
    [] (by decide) (Or.inl (by decide))).1

/-! ## C10 — asymmetric-first precedence -/

/-- Dropping a key leaves lookups of other keys unchanged. -/
theorem lookup_filter_ne (k k0 : String) (hne : k ≠ k0) :
    ∀ l : List (String × JVal),
      (l.filter fun kv => kv.1 ≠ k0).lookup k = l.lookup k
  | [] => rfl
  | (k1, v1) :: rest => by
    by_cases h1 : k1 = k0
    · have hk1 : k ≠ k1 := fun h => hne (h.trans h1)
      rw [List.filter_cons, if_neg (by simp [h1])]
      rw [lookup_filter_ne k k0 hne rest]
      simp [List.lookup, show (k == k1) = false from by simp [hk1]]
    · rw [List.filter_cons, if_pos (by simp [h1])]
      simp only [List.lookup]
      cases k == k1
      · exact lookup_filter_ne k k0 hne rest
      · rfl

/-- Overwriting the `sign` field leaves lookups of other keys
unchanged. -/
theorem lookup_setField_ne (data : JObj) (v : JVal) (k : String)
    (hne : k ≠ "sign") :
    (setField data "sign" v).lookup k = data.lookup k := by
  unfold setField
  have hb : (k == "sign") = false := by simp [hne]
  simp only [List.lookup, hb]
  exact lookup_filter_ne k "sign" hne data

/-- `getStr` on keys other than `sign` ignores the `sign` field. -/
theorem getStr_set_sign (data : JObj) (v : JVal) (k : String)
    (hne : k ≠ "sign") :
    getStr (setField data "sign" v) k = getStr data k := by
  unfold getStr
  rw [lookup_setField_ne data v k hne]

/-- `getObj` on keys other than `sign` ignores the `sign` field. -/
theorem getObj_set_sign (data : JObj) (v : JVal) (k : String)
    (hne : k ≠ "sign") :
    getObj (setField data "sign" v) k = getObj data k := by
  unfold getObj
  rw [lookup_setField_ne data v k hne]

/-- Service order-id resolution ignores the `sign` field. -/
theorem resolveOrderIDSvc_set_sign (data : JObj) (v : JVal) :
    resolveOrderIDSvc (setField data "sign" v) = resolveOrderIDSvc data := by
  unfold resolveOrderIDSvc
  simp only [getStr_set_sign data v "client_sn" (by decide),
    getStr_set_sign data v "order_id" (by decide),
    getStr_set_sign data v "out_trade_no" (by decide),
    getStr_set_sign data v "transaction_id" (by decide),
    getObj_set_sign data v "wechat" (by decide)]

/-- Route order-id resolution ignores the `sign` field. -/
theorem resolveOrderIDRoute_set_sign (data : JObj) (v : JVal) :
    resolveOrderIDRoute (setField data "sign" v) =
      resolveOrderIDRoute data := by
  unfold resolveOrderIDRoute
  simp only [getStr_set_sign data v "client_sn" (by decide),
    getStr_set_sign data v "order_id" (by decide),
    getStr_set_sign data v "out_trade_no" (by decide),
    getStr_set_sign data v "transaction_id" (by decide)]

/-- Route status resolution ignores the `sign` field. -/
theorem resolveStatusRoute_set_sign (data : JObj) (v : JVal) :
    resolveStatusRoute (setField data "sign" v) = resolveStatusRoute data := by
  unfold resolveStatusRoute
  simp only [getStr_set_sign data v "status" (by decide),
    getStr_set_sign data v "trade_status" (by decide),
    getStr_set_sign data v "result_code" (by decide)]

/-- Payment-type resolution ignores the `sign` field. -/
theorem resolvePaymentType_set_sign (ext : Ext) (donation : Donation)
    (data : JObj) (v : JVal) :
    resolvePaymentType ext donation (setField data "sign" v) =
      resolvePaymentType ext donation data := by
  unfold resolvePaymentType
  simp only [getStr_set_sign data v "reflect" (by decide)]

/-- The asymmetric reconciler ignores the embedded `sign` field. -/
theorem handleCallbackWithPublicKeyM_set_sign (ext : Ext) (db : DB)
    (data : JObj) (auth : String) (raw : List Nat) (v : JVal) :
    handleCallbackWithPublicKeyM ext db (setField data "sign" v) auth raw =
      handleCallbackWithPublicKeyM ext db data auth raw := by
  unfold handleCallbackWithPublicKeyM
  simp only [resolveOrderIDSvc_set_sign data v,
    getStr_set_sign data v "status" (by decide),
    getStr_set_sign data v "payer_uid" (by decide),
    resolvePaymentType_set_sign]

/-- The asynchronous tail ignores the embedded `sign` field. -/
theorem routeAsyncTail_set_sign (db : DB) (data : JObj) (oid : String)
    (v : JVal) :
    routeAsyncTail db (setField data "sign" v) oid =
      routeAsyncTail db data oid := by
  unfold routeAsyncTail
  simp only [getStr_set_sign data v "project_id" (by decide),
    getStr_set_sign data v "project" (by decide),
    getStr_set_sign data v "categories" (by decide),
    getStr_set_sign data v "category" (by decide),
    getStr_set_sign data v "category_id" (by decide),
    getStr_set_sign data v "categoryId" (by decide),
    getObj_set_sign data v "wechat" (by decide),
    getObj_set_sign data v "alipay" (by decide)]

set_option maxRecDepth 1000000 in
/-- C10 counterexample: a webhook whose body carries a GENUINELY VALID
embedded symmetric signature (the symmetric reconciler itself accepts
it) but whose status is outside the success whitelist is acknowledged
200 with no verification at all — even with a non-empty Authorization
header whose RSA check would fail — where the claim says any webhook
with an invalid header signature is rejected. -/
theorem C10_nonsuccess_bypass_cex :
    (handleCallbackM extRsaFails testCfg [aliOrder] c10Webhook).ok = true ∧
    extRsaFails.rsaVerify [] "AUTH" = false ∧
    (routeHandleCallback extRsaFails testCfg [aliOrder] "AUTH"
        (some c10Webhook) []).statusCode = 200 ∧
    (routeHandleCallback extRsaFails testCfg [aliOrder] "AUTH"
        (some c10Webhook) []).events = [Ev.ack] := by
  decide

/-- C10 (amended): when the Authorization header is non-empty the
embedded `sign` field is never consulted — the whole route result is
invariant under overwriting it — no symmetric-verification event is
ever emitted, and for SUCCESS-status webhooks a failing RSA check is
rejected 403 with no store mutation even if the body carries a valid
symmetric sign; but a webhook whose status is outside the success
whitelist is acknowledged with no verification of either kind. -/
theorem C10_asym_precedence :
    (∀ (ext : Ext) (cfg : ShouqianbaConfig) (db : DB) (auth : String)
        (data : JObj) (raw : List Nat) (v : JVal), auth ≠ "" →
        routeHandleCallback ext cfg db auth
            (some (setField data "sign" v)) raw =
          routeHandleCallback ext cfg db auth (some data) raw) ∧
    (∀ (ext : Ext) (cfg : ShouqianbaConfig) (db : DB) (auth : String)
        (data : JObj) (raw : List Nat), auth ≠ "" →
        isSuccessStatus (resolveStatusRoute data) = true →
        ext.rsaVerify raw auth = false →
        (routeHandleCallback ext cfg db auth (some data)
            raw).statusCode = 403 ∧
        (routeHandleCallback ext cfg db auth (some data) raw).db = db) ∧
    (∀ (ext : Ext) (cfg : ShouqianbaConfig) (db : DB) (auth : String)
        (data : JObj) (raw : List Nat) (ok : Bool), auth ≠ "" →
        Ev.sigVerifySym ok ∉
          (routeHandleCallback ext cfg db auth (some data) raw).events) := by
  refine ⟨?_, ?_, ?_⟩
  · intro ext cfg db auth data raw v hauth
    unfold routeHandleCallback
    dsimp only
    simp only [resolveStatusRoute_set_sign, resolveOrderIDRoute_set_sign,
      handleCallbackWithPublicKeyM_set_sign, routeAsyncTail_set_sign,
      if_pos hauth]
  · intro ext cfg db auth data raw hauth hsucc hrsa
    have hsvc : handleCallbackWithPublicKeyM ext db data auth raw =
        ⟨false, db, [.sigVerifyAsym false]⟩ := by
      unfold handleCallbackWithPublicKeyM
      rw [if_pos (by simp [hrsa])]
    unfold routeHandleCallback
    dsimp only
    rw [if_neg (by simp [hsucc]), if_pos hauth, hsvc]
    dsimp only
    rw [if_pos (by simp)]
    exact ⟨rfl, rfl⟩
  · intro ext cfg db auth data raw ok hauth hmem
    unfold routeHandleCallback at hmem
    dsimp only at hmem
    by_cases hs : isSuccessStatus (resolveStatusRoute data) = true
    · rw [if_neg (by simp [hs]), if_pos hauth] at hmem
      by_cases hok :
          (handleCallbackWithPublicKeyM ext db data auth raw).ok = true
      · rw [if_neg (by simp [hok])] at hmem
        dsimp only at hmem
        rcases List.mem_append.mp hmem with h | h
        · rcases List.mem_append.mp h with h2 | h2
          · have := mem_asym_events ext db data auth raw _ h2
            simp [asymEv] at this
          · simp at h2
        · have := mem_tail_events _ _ _ _ h
          simp [asyncTailEv] at this
      · rw [if_pos hok] at hmem
        dsimp only at hmem
        rcases List.mem_append.mp hmem with h | h
        · have := mem_asym_events ext db data auth raw _ h
          simp [asymEv] at this
        · simp at h
    · rw [if_pos (by simp [hs])] at hmem
      simp at hmem

/-- Witness for C10: overwriting the embedded sign with garbage does
not change the concrete route result when an Authorization header is
present. -/
theorem C10_asym_precedence_witness :
    routeHandleCallback extAllOk testCfg [aliOrder] "AUTH"
        (some (setField aliWebhook "sign" (JVal.str "bogus"))) [] =
      routeHandleCallback extAllOk testCfg [aliOrder] "AUTH"
        (some aliWebhook) [] :=
  C10_asym_precedence.1 extAllOk testCfg [aliOrder] "AUTH" aliWebhook []
    (JVal.str "bogus") (by decide)

end Zhifu

